import Mathlib

/-!
Verification development for the travel-assistant prototype
(`Prompt Engineering/project-root/src`): a shallow embedding of the
ticket API simulator (`tools.py`), the web-search tool (`web_search.py`)
and the dialogue orchestrator (`orchestrator.py`), together with proofs
about the behaviours the specification describes.

Modelling conventions:
* Python/JSON values are embedded as the inductive `JValue`; Python dicts
  are association lists with unique keys.
* The external LLM (`ChatManager.chat`) is an oracle: each handler takes
  the successive chat responses as explicit string arguments, and a chat
  call that raises a provider error is an `Except.error`.
* `json.loads` is the Python standard library, external to the repository;
  it is modelled as an opaque parameter `parse : String → Option JValue`
  (`none` = `JSONDecodeError`).  Its output, when it is a JSON object, is
  a Python dict, so keys are unique.
* Python floats are modelled exactly: `floatRound` rounds a nonnegative
  rational to the nearest IEEE-754 binary64 value (ties to even), and
  `0.7` denotes the binary64 value 6305039478318694/2^53.
* Mutable state (the in-memory ticket dict mirrored by the persisted
  file, the web-search cache) is passed and returned explicitly.
* A Python exception escaping a function is an `Except.error` carrying
  the exception text.
-/

/-- Embedded JSON/Python value.  Numbers are integers (all numeric values
occurring in this program are integers). -/
inductive JValue where
  | null : JValue
  | bool : Bool → JValue
  | num : Int → JValue
  | str : String → JValue
  | arr : List JValue → JValue
  | obj : List (String × JValue) → JValue

/-- Lookup of a key in an embedded dict (association list). -/
def objGet (fields : List (String × JValue)) (k : String) : Option JValue :=
  match fields with
  | [] => none
  | (k0, v) :: rest => if k0 = k then some v else objGet rest k

/-- Model of Python `d.get(k)`: `None` when the key is absent. -/
def pyGet (fields : List (String × JValue)) (k : String) : JValue :=
  (objGet fields k).getD .null

/-- Model of Python `d.get(k, default)`. -/
def pyGetD (fields : List (String × JValue)) (k : String) (d : JValue) : JValue :=
  (objGet fields k).getD d

/-- Python truthiness of an embedded value. -/
def jTruthy : JValue → Bool
  | .null => false
  | .bool b => b
  | .num n => n ≠ 0
  | .str s => s ≠ ""
  | .arr xs => !xs.isEmpty
  | .obj fs => !fs.isEmpty

/-- Model of Python `a or b`: `a` when truthy, else `b`. -/
def pyOr (a b : JValue) : JValue :=
  if jTruthy a then a else b

/-- Whether the first character list occurs at the head of the second. -/
def headMatch : List Char → List Char → Bool
  | [], _ => true
  | _ :: _, [] => false
  | p :: ps, c :: cs => (p = c) && headMatch ps cs

/-- Whether the first character list occurs anywhere in the second. -/
def occursWithin (pat : List Char) : List Char → Bool
  | [] => pat.isEmpty
  | c :: cs => headMatch pat (c :: cs) || occursWithin pat cs

/-- Model of Python `sub in s` on strings (substring containment; the
empty string is contained in everything). -/
def pyIn (sub s : String) : Bool :=
  occursWithin sub.data s.data

/-- Model of Python `s.lower()`.  `Char.toLower` lowers the ASCII range
only; the strings this program lowers are ASCII or Persian (which has no
case), where the two agree. -/
def pyLower (s : String) : String :=
  ⟨s.data.map Char.toLower⟩

/-- ASCII whitespace test for the model of Python `s.strip()`. -/
def pyIsWS (c : Char) : Bool :=
  c = ' ' || c = '\t' || c = '\n' || c = '\r'

/-- Model of Python `s.strip()` (restricted to ASCII whitespace, which is
all the chat responses in question carry). -/
def pyStrip (s : String) : String :=
  ⟨((s.data.dropWhile pyIsWS).reverse.dropWhile pyIsWS).reverse⟩

/-- Structural (fuel-based) base-two logarithm, so that concrete instances
reduce inside the kernel: `natLog2Aux fuel n` is the floor of log₂ `n`
whenever `n ≤ fuel` and `1 ≤ n`. -/
def natLog2Aux : ℕ → ℕ → ℕ
  | 0, _ => 0
  | fuel + 1, n => if 2 ≤ n then natLog2Aux fuel (n / 2) + 1 else 0

/-- Base-two logarithm used by the float model. -/
def natLog2 (n : ℕ) : ℕ := natLog2Aux n n

/-- Nonnegative dyadic rationals `a / 2^E` represent every value the float
model manipulates.  `roundHalfEvenDy a E` rounds `a / 2^E` to the nearest
integer, ties to even. -/
def roundHalfEvenDy (a E : ℕ) : ℕ :=
  if E = 0 then a
  else
    let f := a / 2 ^ E
    let r := a % 2 ^ E
    let half := 2 ^ (E - 1)
    if r < half then f
    else if half < r then f + 1
    else if f % 2 = 0 then f else f + 1

/-- Round the nonnegative dyadic rational `n / 2^E` to the nearest
IEEE-754 binary64 value (round half to even), returned again as a dyadic
pair (numerator, binary exponent of the denominator).  The exponent
search assumes the value is `0` or at least `1/2`, which holds for every
input this development produces (nonnegative integers, and products of
those with the binary64 value of `0.7`).  Overflow to infinity is not
modelled; the development only applies the model below `2^1024`. -/
def floatRoundDy (n E : ℕ) : ℕ × ℕ :=
  if n = 0 then (0, 0)
  else
    let e : ℤ := if n < 2 ^ E then -1 else (natLog2 (n / 2 ^ E) : ℤ)
    if e ≤ 52 then
      let s : ℕ := (52 - e).toNat
      (roundHalfEvenDy (n * 2 ^ s) E, s)
    else
      let t : ℕ := (e - 52).toNat
      (roundHalfEvenDy n (E + t) * 2 ^ t, 0)

/-- Numerator of the IEEE-754 binary64 value written `0.7` in the source
(`tools.py`, `cancel_ticket`): that value is 6305039478318694 / 2^53. -/
def float07Num : ℕ := 6305039478318694

/-- Exact model of the Python expression `int(p * 0.7)` for a nonnegative
integer `p` (`tools.py` line 106): `p` is converted to binary64, the
product with the binary64 value of `0.7` is rounded to binary64, and
`int` truncates (= floor, the value being nonnegative). -/
def pyIntTimes07 (p : ℕ) : ℕ :=
  let f1 := floatRoundDy p 0
  let f2 := floatRoundDy (f1.1 * float07Num) (f1.2 + 53)
  f2.1 / 2 ^ f2.2

example : pyIntTimes07 170 = 118 := by decide
example : pyIntTimes07 10 = 7 := by decide
example : pyIntTimes07 500000 = 350000 := by decide
example : pyIntTimes07 520000 = 364000 := by decide
example : pyIntTimes07 540000 = 378000 := by decide
example : pyIntTimes07 560000 = 392000 := by decide
example : pyIntTimes07 0 = 0 := by decide
example : pyIntTimes07 1 = 0 := by decide

/-! ## Ticket API simulator (`tools.py`, class `TicketAPISimulator`)

The in-memory dict `self.tickets` and the persisted line-oriented file
always hold the same records (every mutation path rewrites or appends to
the file), so a single association list models both. -/

/-- A stored ticket record, as built by `book_ticket` or loaded from the
persisted file.  The passenger payload is kept as a raw embedded value,
exactly as the dict that arrived in the request. -/
structure Ticket where
  ticket_id : String
  origin : String
  destination : String
  travel_date : String
  passenger : JValue
  price : ℕ
  status : String

/-- The ticket store: association list from ticket id to record, in
insertion order (a Python dict). -/
def TicketStore := List (String × Ticket)

/-- Dict lookup in the ticket store by an arbitrary key value
(`self.tickets.get(ticket_id)`): a non-string key is never present,
because every stored key is a string. -/
def storeGet (store : TicketStore) (key : JValue) : Option Ticket :=
  match key with
  | .str s =>
    match store with
    | [] => none
    | (k, t) :: rest => if k = s then some t else storeGet rest (.str s)
  | _ => none

/-- Dict assignment `self.tickets[k] = t`: replace in place when the key
exists, append otherwise. -/
def storeSet (store : TicketStore) (k : String) (t : Ticket) : TicketStore :=
  match store with
  | [] => [(k, t)]
  | (k0, t0) :: rest =>
    if k0 = k then (k0, t) :: rest else (k0, t0) :: storeSet rest k t

/-- Serialisation of a ticket record back to an embedded dict, in the
field order of `tools.py` lines 73-81. -/
def Ticket.toJValue (t : Ticket) : JValue :=
  .obj [("ticket_id", .str t.ticket_id), ("origin", .str t.origin),
        ("destination", .str t.destination), ("travel_date", .str t.travel_date),
        ("passenger", t.passenger), ("price", .num t.price),
        ("status", .str t.status)]

/-- The fixed allowed city list (`tools.py` lines 14-17). -/
def valid_cities : List String :=
  ["Tehran", "Mashhad", "Isfahan", "Shiraz", "Tabriz",
   "Kerman", "Rasht", "Ahvaz", "Yazd", "Kish"]

/-- Membership of a request value in the allowed city list
(`origin in self.valid_cities`): only a string can be a member. -/
def inValidCities (v : JValue) : Bool :=
  match v with
  | .str s => s ∈ valid_cities
  | _ => false

/-- Decimal accumulation over a character list. -/
def digitsToNatAux : List Char → ℕ → ℕ
  | [], acc => acc
  | c :: cs, acc => digitsToNatAux cs (acc * 10 + (c.toNat - 48))

/-- All characters are decimal digits. -/
def allDigits : List Char → Bool
  | [] => true
  | c :: cs => c.isDigit && allDigits cs

/-- Digits-only parse of a nonempty decimal string. -/
def parseNatDigits (s : String) : Option ℕ :=
  if !s.data.isEmpty && allDigits s.data then
    some (digitsToNatAux s.data 0)
  else none

/-- Gregorian leap year. -/
def isLeapYear (y : ℕ) : Bool :=
  (y % 4 = 0 && y % 100 ≠ 0) || y % 400 = 0

/-- Days in a month of the proleptic Gregorian calendar. -/
def daysInMonth (y m : ℕ) : ℕ :=
  if m = 2 then (if isLeapYear y then 29 else 28)
  else if m = 4 || m = 6 || m = 9 || m = 11 then 30
  else 31

/-- Model of `datetime.strptime(s, "%Y-%m-%d")` succeeding: exactly four
year digits, one or two month digits in 1..12, one or two day digits that
name a real day of that month, and nothing else in the string. -/
def validDateYMD (s : String) : Bool :=
  match s.splitOn "-" with
  | [y, m, d] =>
    match parseNatDigits y, parseNatDigits m, parseNatDigits d with
    | some yn, some mn, some dn =>
      y.length = 4 && m.length ≤ 2 && d.length ≤ 2 &&
      1 ≤ yn && 1 ≤ mn && mn ≤ 12 && 1 ≤ dn && dn ≤ daysInMonth yn mn
    | _, _, _ => false
  | _ => false

/-- Model of the check `any(k not in passenger for k in required)`
being false, i.e. the passenger value containing all required keys.
For a dict that is a key check, for a string a substring check, for a
list an element check; `none` means the membership test itself raises
`TypeError` (numbers and booleans do not support `in`). -/
def passengerHasRequired (passenger : JValue) : Option Bool :=
  match passenger with
  | .obj fs => some (["full_name", "national_id", "phone"].all
      (fun k => (objGet fs k).isSome))
  | .str s => some (["full_name", "national_id", "phone"].all
      (fun k => pyIn k s))
  | .arr xs => some (["full_name", "national_id", "phone"].all
      (fun k => xs.any (fun v => match v with | .str w => w = k | _ => false)))
  | _ => none

/-- Model of `TicketAPISimulator.book_ticket` (`tools.py` lines 47-96).
The fresh UUID is supplied as `newId`.  The body runs inside
`try/except`, so an exception (the `TypeError` of a non-container
passenger membership test) becomes a status-500 error result; every path
returns a result dict together with the (possibly extended) store. -/
def book_ticket (store : TicketStore) (data : List (String × JValue))
    (newId : String) : JValue × TicketStore :=
  let origin := pyGet data "origin"
  let destination := pyGet data "destination"
  let date_str := pyGet data "date"
  let passenger := pyGet data "passenger"
  if !inValidCities origin || !inValidCities destination then
    (.obj [("error", .str "Invalid city name"), ("status", .num 400)], store)
  else
    let dateOk := match date_str with
      | .str s => validDateYMD s
      | _ => false
    if !dateOk then
      (.obj [("error", .str "Invalid date format (YYYY-MM-DD)"), ("status", .num 400)],
       store)
    else if !jTruthy passenger then
      (.obj [("error", .str "Missing passenger information"), ("status", .num 400)],
       store)
    else
      match passengerHasRequired passenger with
      | none =>
        (.obj [("error", .str "argument of type is not iterable"), ("status", .num 500)],
         store)
      | some false =>
        (.obj [("error", .str "Missing passenger information"), ("status", .num 400)],
         store)
      | some true =>
        let originS := match origin with | .str s => s | _ => ""
        let destS := match destination with | .str s => s | _ => ""
        let dateS := match date_str with | .str s => s | _ => ""
        let final_price := 500000 + ((originS.length : ℤ) - (destS.length : ℤ)).natAbs * 20000
        let ticket : Ticket :=
          { ticket_id := newId, origin := originS, destination := destS,
            travel_date := dateS, passenger := passenger,
            price := final_price, status := "confirmed" }
        (.obj [("status", .num 200), ("message", .str "Ticket booked successfully"),
               ("data", ticket.toJValue)],
         storeSet store newId ticket)

/-- Model of `TicketAPISimulator.cancel_ticket` (`tools.py` lines
100-116): look the id up; a missing id is a 404 error result with the
store untouched; any present record — its status is never inspected —
has its status set to `cancelled` in place, the refund is `int(price *
0.7)` in binary64 arithmetic, and a status-200 result is returned. -/
def cancel_ticket (store : TicketStore) (ticket_id : JValue) :
    JValue × TicketStore :=
  match storeGet store ticket_id with
  | none => (.obj [("error", .str "Ticket not found"), ("status", .num 404)], store)
  | some t =>
    let t2 := { t with status := "cancelled" }
    let refund := pyIntTimes07 t.price
    let store2 := match ticket_id with
      | .str s => storeSet store s t2
      | _ => store
    (.obj [("status", .num 200), ("message", .str "Ticket cancelled"),
           ("refund_amount", .num refund), ("ticket_id", ticket_id)],
     store2)

/-- Model of `TicketAPISimulator.get_ticket_info` (`tools.py` lines
119-125): a pure lookup. -/
def get_ticket_info (store : TicketStore) (ticket_id : JValue) : JValue :=
  match storeGet store ticket_id with
  | none => .obj [("error", .str "Ticket not found"), ("status", .num 404)]
  | some t => .obj [("status", .num 200), ("data", t.toJValue)]

/-! ## Web search tool (`web_search.py`, class `WebSearchTool`)

Timestamps are rationals; all `time.time()` readings inside one `search`
call are modelled by the single instant `now` (the call is treated as
instantaneous, and `time.sleep` changes no state).  The live provider
call `_call_tavily` is a network operation, modelled as an oracle
argument: `Except.error` is the exception path of lines 97-99. -/

/-- One result dict as produced by `_mock_results` or `_call_tavily`. -/
structure SearchDoc where
  title : String
  snippet : String
  url : String
  publish_date : String
deriving DecidableEq

/-- Serialisation of a search result back to an embedded dict. -/
def SearchDoc.toJValue (d : SearchDoc) : JValue :=
  .obj [("title", .str d.title), ("snippet", .str d.snippet),
        ("url", .str d.url), ("publish_date", .str d.publish_date)]

/-- The fixed mock samples of `_mock_results` (`web_search.py` lines
43-62). -/
def mockSamples : List SearchDoc :=
  [{ title := "همدان — جاذبه‌های طبیعی",
     snippet := "همدان شهری تاریخی با پاسارگاد و غار علیصدر؛ بهترین زمان بازدید بهار و پاییز است.",
     url := "https://example.com/hamadan-attractions",
     publish_date := "2024-02-12" },
   { title := "شیراز — باغ‌ها و اماکن تاریخی",
     snippet := "شیراز به خاطر تخت جمشید و باغ ارم مشهور است؛ فصل بهار برای دیدن گل‌ها عالی است.",
     url := "https://example.com/shiraz-guide",
     publish_date := "2023-11-03" },
   { title := "اصفهان — پل‌ها و میدان نقش جهان",
     snippet := "اصفهان با معماری منحصر به فرد و غذاهای محلی یک مقصد مناسب برای سفرهای کوتاه است.",
     url := "https://example.com/esfahan-highlights",
     publish_date := "2022-09-15" }]

/-- Python list slice `l[:m]` for an `int` bound `m` (negative bounds
count from the end). -/
def pySliceTo (m : ℤ) (l : List α) : List α :=
  if 0 ≤ m then l.take m.toNat
  else l.take (l.length - m.natAbs)

/-- The append loop of `_mock_results` lines 69-71: walk `samples`,
appending each one not already present. -/
def appendMissing [DecidableEq α] (samples acc : List α) : List α :=
  samples.foldl (fun a s => if s ∈ a then a else a ++ [s]) acc

/-- Model of `WebSearchTool._mock_results` (`web_search.py` lines 41-72):
with a truthy location, the samples mentioning it (case-lowered substring
of title or snippet) come first; then every sample not yet listed; then
the slice to `max_results`. -/
def mock_results (location : Option String) (max_results : ℤ) : List SearchDoc :=
  let base :=
    match location with
    | some loc =>
      if loc ≠ "" then
        mockSamples.filter (fun s =>
          pyIn (pyLower loc) (pyLower s.title) || pyIn (pyLower loc) (pyLower s.snippet))
      else []
    | none => []
  pySliceTo max_results (appendMissing mockSamples base)

/-- One entry of the module-level `_cache`: a timestamp and the cached
result list. -/
structure CacheItem where
  ts : ℚ
  value : List SearchDoc

/-- The mutable state a `search` call reads and writes: the module-level
`_cache` and the per-instance `_last_query_time`, both keyed by the
cache-key string. -/
structure SearchState where
  cache : List (String × CacheItem)
  lastQuery : List (String × ℚ)

/-- Association-list lookup for the search state. -/
def alistGet (l : List (String × α)) (k : String) : Option α :=
  match l with
  | [] => none
  | (k0, v) :: rest => if k0 = k then some v else alistGet rest k

/-- Association-list assignment (replace or append) for the search state. -/
def alistSet (l : List (String × α)) (k : String) (v : α) : List (String × α) :=
  match l with
  | [] => [(k, v)]
  | (k0, v0) :: rest =>
    if k0 = k then (k0, v) :: rest else (k0, v0) :: alistSet rest k v

/-- Model of `WebSearchTool._make_cache_key` (`web_search.py` line 39). -/
def make_cache_key (query : String) (location : Option String)
    (max_results : ℤ) : String :=
  "web:" ++ query ++ "|loc:" ++ (match location with
    | some l => if l ≠ "" then l else ""
    | none => "") ++ "|k:" ++ toString max_results

/-- Model of `WebSearchTool._cache_get` (`web_search.py` lines 26-33):
returns the cached value when present and fresh, popping an expired
entry; the possibly shrunk cache is returned alongside. -/
def cache_get (cache : List (String × CacheItem)) (ttl now : ℚ)
    (key : String) : Option (List SearchDoc) × List (String × CacheItem) :=
  match alistGet cache key with
  | none => (none, cache)
  | some item =>
    if ttl < now - item.ts then
      (none, cache.filter (fun kv => kv.1 != key))
    else (some item.value, cache)

/-- The response dict every branch of `search` builds:
success flag, source tag, echoed query, result list. -/
def searchReturn (source query : String) (results : List SearchDoc) : JValue :=
  .obj [("success", .bool true), ("source", .str source),
        ("query", .str query), ("results", .arr (results.map SearchDoc.toJValue))]

/-- The part of `search` after the rate-limit block (`web_search.py`
lines 118-133): serve a fresh cache entry, else try the provider, else
fall back to the mock results; every branch stamps `_last_query_time`. -/
def searchCore (st : SearchState) (ttl now : ℚ)
    (provider : Except String (List SearchDoc))
    (query : String) (location : Option String) (max_results : ℤ)
    (key : String) : JValue × SearchState :=
  let (cached, cache2) := cache_get st.cache ttl now key
  match cached with
  | some v =>
    (searchReturn "cache" query v,
     { cache := cache2, lastQuery := alistSet st.lastQuery key now })
  | none =>
    match provider with
    | .ok results =>
      (searchReturn "tavily" query results,
       { cache := alistSet cache2 key { ts := now, value := results },
         lastQuery := alistSet st.lastQuery key now })
    | .error _ =>
      let results := mock_results location max_results
      (searchReturn "mock" query results,
       { cache := alistSet cache2 key { ts := now, value := results },
         lastQuery := alistSet st.lastQuery key now })

/-- Model of `WebSearchTool.search` (`web_search.py` lines 101-133).
`ttl` and `min_interval` are the instance configuration; `provider` is
the outcome the live call would have.  Inside the rate-limit window a
fresh cache entry is served without stamping `_last_query_time`
(the code returns before the stamp); otherwise the call sleeps and
proceeds like the unthrottled path. -/
def search (st : SearchState) (ttl min_interval now : ℚ)
    (provider : Except String (List SearchDoc))
    (query : String) (location : Option String) (max_results : ℤ) :
    JValue × SearchState :=
  let key := make_cache_key query location max_results
  let last := (alistGet st.lastQuery key).getD 0
  if now - last < min_interval then
    let (cached, cache2) := cache_get st.cache ttl now key
    match cached with
    | some v => (searchReturn "cache" query v, { st with cache := cache2 })
    | none => searchCore { st with cache := cache2 } ttl now provider
        query location max_results key
  else searchCore st ttl now provider query location max_results key

/-! ## Tool registry dispatch (`tools.py`, class `Tools`)

`Tools.run` has no `try/except` of its own, so an exception raised while
preparing or executing a tool call escapes to the caller: the model
returns `Except`, `.error` being an escaping Python exception.  The two
stateful sub-tools external to the dispatch logic are oracles: `ragO`
models `self.rag.query` and `webO` models `self.web.search` (the
web-search tool itself never raises, as proved below on its direct
embedding `search`). -/

/-- Model of Python `int(v)` applied to an embedded value: identity on
integers, `True`/`False` become 1/0, a string is parsed as an optionally
signed decimal integer with surrounding whitespace allowed, and anything
else raises (`TypeError`/`ValueError`), which the caller does not catch. -/
def pyIntCoerce (v : JValue) : Except String ℤ :=
  match v with
  | .num n => .ok n
  | .bool b => .ok (if b then 1 else 0)
  | .str s =>
    match (pyStrip s).data with
    | '-' :: core =>
      match parseNatDigits ⟨core⟩ with
      | some n => .ok (-(n : ℤ))
      | none => .error ("invalid literal for int() with base 10: " ++ s)
    | '+' :: core =>
      match parseNatDigits ⟨core⟩ with
      | some n => .ok (n : ℤ)
      | none => .error ("invalid literal for int() with base 10: " ++ s)
    | core =>
      match parseNatDigits ⟨core⟩ with
      | some n => .ok (n : ℤ)
      | none => .error ("invalid literal for int() with base 10: " ++ s)
  | _ => .error "int() argument must be a string or a number"

/-- Model of `Tools.run` (`tools.py` lines 137-157).  `newId` is the
UUID a booking would mint; `ragO query top_k` is the result list of
`self.rag.query`; `webO query location max_results` is the result dict
of `self.web.search`.  A `.error` outcome is an exception propagating to
the caller — there is no catch-all in `run`. -/
def toolsRun (store : TicketStore)
    (ragO : JValue → ℤ → JValue)
    (webO : JValue → JValue → ℤ → JValue)
    (newId : String)
    (tool_name : String) (params : List (String × JValue)) :
    Except String (JValue × TicketStore) :=
  if tool_name = "api_book_ticket" then
    .ok (book_ticket store params newId)
  else if tool_name = "api_cancel_ticket" then
    .ok (cancel_ticket store (pyGet params "ticket_id"))
  else if tool_name = "api_get_ticket_info" then
    .ok (get_ticket_info store (pyGet params "ticket_id"), store)
  else if tool_name = "rag_query" then
    let q := pyOr (pyGet params "query") (pyOr (pyGet params "q") (.str ""))
    match pyIntCoerce (pyGetD params "top_k" (.num 3)) with
    | .error e => .error e
    | .ok top_k => .ok (.obj [("results", ragO q top_k)], store)
  else if tool_name = "web_search" then
    let query := pyOr (pyGet params "query") (pyOr (pyGet params "q") (.str ""))
    let location := pyGet params "location"
    match pyIntCoerce (pyGetD params "max_results" (.num 5)) with
    | .error e => .error e
    | .ok max_results => .ok (webO query location max_results, store)
  else
    .ok (.obj [("error", .str "Unknown tool"), ("status", .num 400)], store)

/-! ## Dialogue orchestrator (`orchestrator.py`, class `Orchestrator`)

Each `ChatManager.chat` call is an oracle: the handlers receive the
successive chat responses as explicit arguments (`Except.error` for a
provider exception where the source catches one).  `json.loads` is the
opaque parameter `parse`; `parse s = none` is a `JSONDecodeError`. -/

/-- Outcome of one orchestrator turn: a returned response dict (the
response value, plus the `tool_result` entry when present), or an
uncaught Python exception escaping the handler. -/
inductive TurnOutcome where
  | reply (response : JValue) (tool_result : Option JValue)
  | exn (msg : String)

/-- Model of `Orchestrator._handle_booking` (`orchestrator.py` lines
48-106).  The four chat responses (slot filling, passenger validation,
confirmation, tool trigger) are the oracle arguments; `toolRun t p` is
the dict `self.tools.run(t, p)` would return.  Alongside the outcome the
invocations of `self.tools.run` made by the handler are logged.

Mirrored control flow: the slot response is parsed; a parse failure is
the fixed parse-error reply; a truthy `question` is returned verbatim.
The validation step then parses `slot_resp` AGAIN (source line 72 reads
`json.loads(slot_resp)`, not the validation response), so its `question`
test re-examines the slot response.  A confirmation response containing
neither "تایید" nor (case-lowered) "confirm" is returned as the reply;
otherwise the tool-trigger response is parsed without any `try`, and its
`tool`/`params` entries are dispatched. -/
def handle_booking (parse : String → Option JValue)
    (toolRun : JValue → JValue → JValue)
    (slot_resp _validation_resp confirm_resp tool_trigger : String) :
    TurnOutcome × List (JValue × JValue) :=
  match parse slot_resp with
  | none => (.reply (.str "Error parsing booking response.") none, [])
  | some v =>
    match v with
    | .obj fields =>
      let q := pyGet fields "question"
      if jTruthy q then (.reply q none, [])
      else
        -- validation chat happens (validation_resp), but the source then
        -- parses slot_resp again, so validation_resp is never inspected
        match parse slot_resp with
        | none => (.reply (.str "Error parsing booking response.") none, [])
        | some v2 =>
          match v2 with
          | .obj fields2 =>
            let q2 := pyGet fields2 "question"
            if jTruthy q2 then (.reply q2 none, [])
            else
              if !pyIn "تایید" confirm_resp && !pyIn "confirm" (pyLower confirm_resp) then
                (.reply (.str confirm_resp) none, [])
              else
                match parse tool_trigger with
                | none => (.exn "json.decoder.JSONDecodeError", [])
                | some tc =>
                  match tc with
                  | .obj tcf =>
                    match objGet tcf "tool", objGet tcf "params" with
                    | some tool, some prms =>
                      (.reply (.str "رزرو شما با موفقیت انجام شد ")
                         (some (toolRun tool prms)), [(tool, prms)])
                    | _, _ => (.exn "KeyError", [])
                  | _ => (.exn "TypeError: not a dict", [])
          | _ => (.exn "AttributeError: no attribute get", [])
    | _ => (.exn "AttributeError: no attribute get", [])

/-- The valid intent tokens of `_detect_intent_llm`
(`orchestrator.py` line 163). -/
def valid_intents : List String :=
  ["book_ticket", "cancel_ticket", "get_ticket_info", "travel_suggestion",
   "rag_question"]

/-- Model of `Orchestrator._detect_intent_llm` (`orchestrator.py` lines
159-176).  `chatResult` is the classification chat call (`.error` = the
call raised).  A valid token is returned as is; otherwise the stripped
response is parsed: a parse failure returns the fallback, a parsed
non-dict raises `AttributeError` at `.get`, which the enclosing `try`
turns into the fallback as well; a dict with a truthy `intent` entry
returns that entry, and otherwise the function falls off its end and
returns Python `None` (here `Option.none`). -/
def detect_intent_llm (parse : String → Option JValue)
    (chatResult : Except String String) : Option JValue :=
  match chatResult with
  | .error _ => some (.str "travel_suggestion")
  | .ok resp =>
    let intent_resp := pyStrip resp
    if intent_resp ∈ valid_intents then some (.str intent_resp)
    else
      match parse intent_resp with
      | none => some (.str "travel_suggestion")
      | some (.obj fields) =>
        let i := pyGet fields "intent"
        if jTruthy i then some i else none
      | some _ => some (.str "travel_suggestion")

/-- Model of `Orchestrator._detect_language_llm` (`orchestrator.py`
lines 179-188): accept exactly "fa" or "en" after strip+lower, default
"fa", also on a raised chat call. -/
def detect_language_llm (chatResult : Except String String) : String :=
  match chatResult with
  | .error _ => "fa"
  | .ok resp =>
    let lang_resp := pyLower (pyStrip resp)
    if lang_resp = "fa" || lang_resp = "en" then lang_resp else "fa"

/-- Model of Python `x == s` for a string literal `s`, where `x` is the
detected intent (any value, or Python `None`): only an equal string
compares equal. -/
def pyEqStr (v : Option JValue) (s : String) : Bool :=
  match v with
  | some (.str t) => t = s
  | _ => false

/-- Model of `Orchestrator.run` (`orchestrator.py` lines 217-244).
`langChat` and `intentChat` are the two classification chat calls;
`bookingR`, `cancelR`, `infoR`, `suggestR`, `ragR` are the dicts the five
intent handlers would return; `generalResp` is the plain chat response of
the fall-through.  Dispatch compares the detected intent (an arbitrary
value, or Python `None`) against the five string literals in order, so
anything that is not one of those strings falls through to the general
reply dict carrying `lang` and `intent`. -/
def orchestratorRun (parse : String → Option JValue)
    (langChat intentChat : Except String String)
    (bookingR cancelR infoR suggestR ragR : JValue)
    (generalResp : String) : JValue :=
  let lang := detect_language_llm langChat
  let intent := detect_intent_llm parse intentChat
  if pyEqStr intent "book_ticket" then bookingR
  else if pyEqStr intent "cancel_ticket" then cancelR
  else if pyEqStr intent "get_ticket_info" then infoR
  else if pyEqStr intent "travel_suggestion" then suggestR
  else if pyEqStr intent "rag_question" then ragR
  else
    .obj [("response", .str generalResp), ("lang", .str lang),
          ("intent", match intent with | some v => v | none => .null)]

/-! ## Helper lemmas -/

/-- After `storeSet`, looking the written key up finds the new record. -/
theorem storeGet_storeSet (store : TicketStore) (k : String) (t : Ticket) :
    storeGet (storeSet store k t) (.str k) = some t := by
  induction store with
  | nil => simp [storeSet, storeGet]
  | cons kv rest ih =>
    obtain ⟨k0, t0⟩ := kv
    by_cases h : k0 = k
    · simp [storeSet, storeGet, h]
    · simp [storeSet, storeGet, h, ih]

/-- A key filtered out of an association list is no longer found. -/
theorem alistGet_filter_self (l : List (String × CacheItem)) (k : String) :
    alistGet (l.filter fun kv => kv.1 != k) k = none := by
  induction l with
  | nil => simp [alistGet]
  | cons kv rest ih =>
    obtain ⟨k0, v0⟩ := kv
    by_cases h : k0 = k
    · simpa [h] using ih
    · simp [h, alistGet, ih]

/-- A second `_cache_get` right after one that came back empty also comes
back empty (the first either found nothing or popped the stale entry). -/
theorem cache_get_again_none (cache : List (String × CacheItem)) (ttl now : ℚ)
    (key : String) (h : (cache_get cache ttl now key).1 = none) :
    (cache_get (cache_get cache ttl now key).2 ttl now key).1 = none := by
  unfold cache_get
  cases halist : alistGet cache key with
  | none => simp [halist]
  | some item =>
    by_cases hexp : ttl < now - item.ts
    · simp only [halist, if_pos hexp]
      rw [alistGet_filter_self]
    · exfalso
      unfold cache_get at h
      rw [halist] at h
      simp [hexp] at h

/-- The append loop of `_mock_results` yields the empty list only from
empty inputs. -/
theorem appendMissing_eq_nil [DecidableEq α] (samples acc : List α)
    (h : appendMissing samples acc = []) : samples = [] ∧ acc = [] := by
  induction samples generalizing acc with
  | nil => exact ⟨rfl, h⟩
  | cons s ss ih =>
    unfold appendMissing at h
    simp only [List.foldl_cons] at h
    have h2 := ih _ h
    by_cases hmem : s ∈ acc
    · simp [hmem] at h2
      exact absurd (h2.2 ▸ hmem) (List.not_mem_nil s)
    · simp [hmem] at h2

/-- Everything the append loop of `_mock_results` produces comes from the
accumulator or from the walked samples. -/
theorem appendMissing_mem [DecidableEq α] {x : α} (samples acc : List α)
    (h : x ∈ appendMissing samples acc) : x ∈ acc ∨ x ∈ samples := by
  induction samples generalizing acc with
  | nil => exact Or.inl h
  | cons s ss ih =>
    unfold appendMissing at h
    simp only [List.foldl_cons] at h
    rcases ih _ h with hacc | hss
    · by_cases hmem : s ∈ acc
      · simp [hmem] at hacc
        exact Or.inl hacc
      · simp [hmem] at hacc
        rcases hacc with h1 | h1
        · exact Or.inl h1
        · exact Or.inr (h1 ▸ List.mem_cons_self s ss)
    · exact Or.inr (List.mem_cons_of_mem s hss)

/-- A positive slice bound keeps a nonempty list nonempty. -/
theorem pySliceTo_ne_nil {α : Type} (m : ℤ) (l : List α)
    (hm : 1 ≤ m) (hl : l ≠ []) : pySliceTo m l ≠ [] := by
  unfold pySliceTo
  rw [if_pos (le_trans zero_le_one hm)]
  have : 1 ≤ m.toNat := by omega
  cases l with
  | nil => exact absurd rfl hl
  | cons a rest =>
    cases hn : m.toNat with
    | zero => omega
    | succ k => simp [List.take_succ_cons]

/-- A slice is made of elements of the sliced list. -/
theorem pySliceTo_subset {α : Type} (m : ℤ) (l : List α) {x : α}
    (h : x ∈ pySliceTo m l) : x ∈ l := by
  unfold pySliceTo at h
  by_cases h0 : 0 ≤ m
  · rw [if_pos h0] at h
    exact List.take_subset _ _ h
  · rw [if_neg h0] at h
    exact List.take_subset _ _ h

/-! ## Claim theorems -/

/-- C7: in the booking handler, for every slot-extraction LLM response
that parses as a JSON object with a non-empty string `question` field,
the handler returns exactly that question text as the turn response, and
no tool invocation occurs during the turn. -/
theorem booking_slot_question_returned
    (parse : String → Option JValue) (toolRun : JValue → JValue → JValue)
    (slot_resp validation_resp confirm_resp tool_trigger : String)
    (fields : List (String × JValue)) (q : String)
    (hp : parse slot_resp = some (.obj fields))
    (hq : objGet fields "question" = some (.str q))
    (hne : q ≠ "") :
    handle_booking parse toolRun slot_resp validation_resp confirm_resp tool_trigger =
      (.reply (.str q) none, []) := by
  unfold handle_booking
  rw [hp]
  simp [pyGet, hq, jTruthy, hne]

/-- Witness for C7 at a concrete parse oracle and concrete responses. -/
theorem booking_slot_question_returned_witness :
    handle_booking
      (fun s => if s = "SLOT" then
        some (.obj [("question", .str "Please provide the origin city")]) else none)
      (fun _ _ => .null) "SLOT" "V" "C" "T" =
      (.reply (.str "Please provide the origin city") none, []) :=
  booking_slot_question_returned _ _ _ _ _ _ _ _ rfl rfl (by decide)

/-- C9: a booking request whose origin or destination is not a member of
the fixed allowed city list is rejected with the status-400 error result,
and the ticket store (in-memory dict and persisted file alike) is
returned unchanged. -/
theorem book_ticket_invalid_city_rejected
    (store : TicketStore) (data : List (String × JValue)) (newId : String)
    (h : inValidCities (pyGet data "origin") = false ∨
         inValidCities (pyGet data "destination") = false) :
    book_ticket store data newId =
      (.obj [("error", .str "Invalid city name"), ("status", .num 400)], store) := by
  unfold book_ticket
  rcases h with h | h <;> simp [h]

/-- Witness for C9: booking from an unknown city is rejected and the
store stays empty. -/
theorem book_ticket_invalid_city_rejected_witness :
    book_ticket [] [("origin", .str "Paris"), ("destination", .str "Tehran"),
                    ("date", .str "2025-01-01")] "uuid-1" =
      (.obj [("error", .str "Invalid city name"), ("status", .num 400)], []) :=
  book_ticket_invalid_city_rejected _ _ _ (Or.inl (by decide))

/-- C1: in the booking handler, whenever execution reaches the
confirmation step (the slot response parses as a JSON object with no
truthy `question`, and the repeated parse behaves the same), a
confirmation response containing neither "تایید" nor a case-insensitive
"confirm" is returned verbatim as the turn response with no tool
invocation; conversely, any booking-handler run that did invoke a tool
had one of the two confirmation tokens in the confirmation response. -/
theorem booking_requires_confirmation_token
    (parse : String → Option JValue) (toolRun : JValue → JValue → JValue)
    (slot_resp validation_resp confirm_resp tool_trigger : String) :
    (∀ fields, parse slot_resp = some (.obj fields) →
      jTruthy (pyGet fields "question") = false →
      pyIn "تایید" confirm_resp = false →
      pyIn "confirm" (pyLower confirm_resp) = false →
      handle_booking parse toolRun slot_resp validation_resp confirm_resp tool_trigger =
        (.reply (.str confirm_resp) none, []))
    ∧ ((handle_booking parse toolRun slot_resp validation_resp confirm_resp
          tool_trigger).2 ≠ [] →
      pyIn "تایید" confirm_resp = true ∨ pyIn "confirm" (pyLower confirm_resp) = true) := by
  constructor
  · intro fields hp hq h1 h2
    unfold handle_booking
    rw [hp]
    simp [hq, h1, h2]
  · intro hlog
    by_cases h1 : pyIn "تایید" confirm_resp = true
    · exact Or.inl h1
    by_cases h2 : pyIn "confirm" (pyLower confirm_resp) = true
    · exact Or.inr h2
    exfalso
    apply hlog
    rw [Bool.not_eq_true] at h1 h2
    unfold handle_booking
    cases hps : parse slot_resp with
    | none => rfl
    | some v =>
      cases v with
      | obj fields =>
        by_cases hq : jTruthy (pyGet fields "question") = true
        · simp [hq]
        · rw [Bool.not_eq_true] at hq
          simp [hps, hq, h1, h2]
      | null => rfl
      | bool b => rfl
      | num n => rfl
      | str s => rfl
      | arr xs => rfl

/-- Witness for C1: a token-free confirmation summary is returned as the
reply with an empty tool log, and a run that did invoke the booking tool
had a confirmation token in its confirmation response. -/
theorem booking_requires_confirmation_token_witness :
    (handle_booking
      (fun s => if s = "SLOT" then
        some (.obj [("slots", .obj [("origin", .str "Tehran")])]) else none)
      (fun _ _ => .null) "SLOT" "V" "خلاصه رزرو شما" "T" =
      (.reply (.str "خلاصه رزرو شما") none, [])) ∧
    (pyIn "تایید" "با تایید شما انجام شد" = true ∨
     pyIn "confirm" (pyLower "با تایید شما انجام شد") = true) :=
  ⟨(booking_requires_confirmation_token _ _ _ _ _ _).1 _ rfl (by decide)
    (by decide) (by decide),
   (booking_requires_confirmation_token
      (fun s => if s = "SLOT" then
        some (.obj [("slots", .obj [("origin", .str "Tehran")])])
      else if s = "TRIG" then
        some (.obj [("tool", .str "api_book_ticket"), ("params", .obj [])])
      else none)
      (fun _ _ => .null) "SLOT" "V" "با تایید شما انجام شد" "TRIG").2
    (fun h => nomatch h)⟩

/-- C2 (code bug): a slot response that parses with no outstanding
question, followed by a validation response carrying a clarifying
question, does NOT make the handler return that question: line 72 of
`orchestrator.py` parses `slot_resp` again instead of `validation_resp`,
so the validation question is ignored and the flow proceeds to the
confirmation step (here: a token-free summary, returned verbatim).  The
parse oracle below maps the validation response to a dict whose
`question` entry would have been returned had the right string been
parsed. -/
theorem booking_validation_question_ignored :
    handle_booking
      (fun s =>
        if s = "SLOT" then some (.obj [("slots", .obj [("origin", .str "Tehran")])])
        else if s = "VALID" then
          some (.obj [("question", .str "National ID must be exactly 10 digits")])
        else none)
      (fun _ _ => .null) "SLOT" "VALID" "خلاصه رزرو" "TRIGGER" =
      (.reply (.str "خلاصه رزرو") none, []) ∧
    (JValue.str "خلاصه رزرو") ≠ (.str "National ID must be exactly 10 digits") := by
  constructor
  · rfl
  · intro h
    exact absurd (JValue.str.inj h) (by decide)

/-- C3 (amended): cancelling an id that is not in the store yields the
404 not-found error result and leaves the store unchanged; but any
present record — its status is never inspected, so an already-cancelled
ticket included — is set to `cancelled` and a status-200 success result
with a freshly computed refund is returned. -/
theorem cancel_ticket_missing_vs_present (store : TicketStore) (tid : String) :
    (storeGet store (.str tid) = none →
      cancel_ticket store (.str tid) =
        (.obj [("error", .str "Ticket not found"), ("status", .num 404)], store))
    ∧ (∀ t, storeGet store (.str tid) = some t →
      cancel_ticket store (.str tid) =
        (.obj [("status", .num 200), ("message", .str "Ticket cancelled"),
               ("refund_amount", .num (pyIntTimes07 t.price)), ("ticket_id", .str tid)],
         storeSet store tid { t with status := "cancelled" })) := by
  constructor
  · intro h
    unfold cancel_ticket
    rw [h]
  · intro t h
    unfold cancel_ticket
    rw [h]

/-- A concrete already-cancelled stored record used by the C3 theorems. -/
def cancelledT1 : Ticket :=
  { ticket_id := "T1", origin := "Tehran", destination := "Shiraz",
    travel_date := "2025-01-01", passenger := .null, price := 100,
    status := "cancelled" }

/-- Witness for C3 (amended): one missing id and one present
already-cancelled id, at concrete stores. -/
theorem cancel_ticket_missing_vs_present_witness :
    cancel_ticket [] (.str "nope") =
      (.obj [("error", .str "Ticket not found"), ("status", .num 404)], []) ∧
    cancel_ticket [("T1", cancelledT1)] (.str "T1") =
      (.obj [("status", .num 200), ("message", .str "Ticket cancelled"),
             ("refund_amount", .num (pyIntTimes07 cancelledT1.price)),
             ("ticket_id", .str "T1")],
       storeSet [("T1", cancelledT1)] "T1" { cancelledT1 with status := "cancelled" }) :=
  ⟨(cancel_ticket_missing_vs_present [] "nope").1 rfl,
   (cancel_ticket_missing_vs_present _ "T1").2 _ rfl⟩

/-- A concrete already-cancelled stored record used by the C3
counterexample. -/
def cancelledT9 : Ticket :=
  { ticket_id := "T9", origin := "Yazd", destination := "Kish",
    travel_date := "2025-02-02", passenger := .null, price := 100,
    status := "cancelled" }

/-- C3 counterexample: a stored ticket whose status is already
`cancelled` does NOT produce a not-found/error result — `cancel_ticket`
returns the status-200 success dict (with a recomputed refund), so
cancellation is a silent re-success on an already-cancelled ticket. -/
theorem cancel_already_cancelled_succeeds :
    (cancel_ticket [("T9", cancelledT9)] (.str "T9")).1 =
      .obj [("status", .num 200), ("message", .str "Ticket cancelled"),
            ("refund_amount", .num 70), ("ticket_id", .str "T9")] ∧
    objGet [("status", .num 200), ("message", .str "Ticket cancelled"),
            ("refund_amount", .num 70), ("ticket_id", .str "T9")] "error" = none := by
  exact ⟨rfl, rfl⟩

/-- C4 (amended): cancelling a stored `confirmed` ticket of price `p`
(below the binary64 overflow threshold) flips the stored status to
`cancelled` and returns the status-200 success result whose
`refund_amount` is `int(p * 0.7)` evaluated in binary64 float arithmetic
— which is the exact floor of `0.7 * p` for the prices `book_ticket`
itself generates, but not for every integer price (see the
counterexample at 170). -/
theorem cancel_confirmed_transition_and_refund
    (store : TicketStore) (tid : String) (t : Ticket)
    (hfind : storeGet store (.str tid) = some t)
    (hstatus : t.status = "confirmed")
    (hbound : t.price < 2 ^ 1024) :
    (cancel_ticket store (.str tid)).1 =
      .obj [("status", .num 200), ("message", .str "Ticket cancelled"),
            ("refund_amount", .num (pyIntTimes07 t.price)), ("ticket_id", .str tid)] ∧
    storeGet (cancel_ticket store (.str tid)).2 (.str tid) =
      some { t with status := "cancelled" } := by
  unfold cancel_ticket
  rw [hfind]
  exact ⟨rfl, storeGet_storeSet store tid _⟩

/-- A concrete confirmed stored record of price 500000 used by the C4
witness. -/
def confirmedB1 : Ticket :=
  { ticket_id := "B1", origin := "Tehran", destination := "Shiraz",
    travel_date := "2025-03-03", passenger := .null, price := 500000,
    status := "confirmed" }

/-- Witness for C4 (amended) at a confirmed 500000-price ticket: the
refund is computable and the stored status flips. -/
theorem cancel_confirmed_transition_and_refund_witness :
    (cancel_ticket [("B1", confirmedB1)] (.str "B1")).1 =
      .obj [("status", .num 200), ("message", .str "Ticket cancelled"),
            ("refund_amount", .num (pyIntTimes07 confirmedB1.price)),
            ("ticket_id", .str "B1")] ∧
    storeGet (cancel_ticket [("B1", confirmedB1)] (.str "B1")).2 (.str "B1") =
      some { confirmedB1 with status := "cancelled" } :=
  cancel_confirmed_transition_and_refund _ "B1" _ rfl rfl (by norm_num [confirmedB1])

/-- A concrete confirmed stored record of price 170 used by the C4
counterexample. -/
def confirmedF1 : Ticket :=
  { ticket_id := "F1", origin := "Tehran", destination := "Shiraz",
    travel_date := "2025-04-04", passenger := .null, price := 170,
    status := "confirmed" }

/-- C4 counterexample: for the confirmed ticket of price 170 the code
returns `refund_amount = 118` (binary64 `170 * 0.7` is just below 119 and
`int` truncates), while the exact `floor(170 * 0.7)` of the claim is
`170 * 7 / 10 = 119`. -/
theorem cancel_refund_differs_from_exact_floor :
    (cancel_ticket [("F1", confirmedF1)] (.str "F1")).1 =
      .obj [("status", .num 200), ("message", .str "Ticket cancelled"),
            ("refund_amount", .num 118), ("ticket_id", .str "F1")] ∧
    170 * 7 / 10 = 119 ∧ (118 : ℤ) ≠ 119 := by
  refine ⟨rfl, rfl, by decide⟩

/-- C6: an intent-classification response that (stripped) is not a valid
intent token and does not parse as a JSON object makes `_detect_intent_llm`
return "travel_suggestion" — whether the parse fails outright or yields a
non-dict (whose `.get` raises inside the enclosing `try`); the same
fallback is returned when the classification chat call itself raises. -/
theorem intent_fallback_to_travel_suggestion
    (parse : String → Option JValue) (chatResult : Except String String) :
    (∀ r, chatResult = .ok r → pyStrip r ∉ valid_intents →
      (∀ fields, parse (pyStrip r) ≠ some (.obj fields)) →
      detect_intent_llm parse chatResult = some (.str "travel_suggestion"))
    ∧ (∀ e, chatResult = .error e →
      detect_intent_llm parse chatResult = some (.str "travel_suggestion")) := by
  constructor
  · intro r hok hnv hno
    subst hok
    unfold detect_intent_llm
    simp only [if_neg hnv]
    cases hp : parse (pyStrip r) with
    | none => rfl
    | some v =>
      cases v with
      | obj fields => exact absurd hp (hno fields)
      | null => rfl
      | bool b => rfl
      | num n => rfl
      | str s => rfl
      | arr xs => rfl
  · intro e he
    subst he
    rfl

/-- Witness for C6: a free-text classification response falls back, and
so does a raised classification call. -/
theorem intent_fallback_to_travel_suggestion_witness :
    detect_intent_llm (fun _ => none) (.ok "I think the user wants a trip") =
      some (.str "travel_suggestion") ∧
    detect_intent_llm (fun _ => none) (.error "rate limited") =
      some (.str "travel_suggestion") :=
  ⟨(intent_fallback_to_travel_suggestion _ _).1 _ rfl (by decide)
     (fun _ h => by simp at h),
   (intent_fallback_to_travel_suggestion _ _).2 _ rfl⟩

/-- C10: an intent-classification response that is not a valid token but
parses as a JSON object with no truthy `intent` entry makes
`_detect_intent_llm` fall off its end and return Python `None`; then
`Orchestrator.run` matches no intent handler and replies through the
plain general-chat fallback, a dict carrying the chat response together
with `lang` and the (null) `intent`. -/
theorem intent_none_general_fallback
    (parse : String → Option JValue) (langChat : Except String String)
    (r : String) (fields : List (String × JValue))
    (bookingR cancelR infoR suggestR ragR : JValue) (generalResp : String)
    (hnv : pyStrip r ∉ valid_intents)
    (hp : parse (pyStrip r) = some (.obj fields))
    (hq : jTruthy (pyGet fields "intent") = false) :
    detect_intent_llm parse (.ok r) = none ∧
    orchestratorRun parse langChat (.ok r) bookingR cancelR infoR suggestR ragR
        generalResp =
      .obj [("response", .str generalResp),
            ("lang", .str (detect_language_llm langChat)), ("intent", .null)] := by
  have hdet : detect_intent_llm parse (.ok r) = none := by
    unfold detect_intent_llm
    simp only [if_neg hnv, hp]
    simp [hq]
  refine ⟨hdet, ?_⟩
  unfold orchestratorRun
  rw [hdet]
  rfl

/-- Witness for C10 at a concrete parse oracle: the object lacks a
truthy `intent`, so the orchestrator answers through the general chat. -/
theorem intent_none_general_fallback_witness :
    detect_intent_llm
      (fun s => if s = "weird" then some (.obj [("intent", .str "")]) else none)
      (.ok "weird") = none ∧
    orchestratorRun
      (fun s => if s = "weird" then some (.obj [("intent", .str "")]) else none)
      (.ok "fa") (.ok "weird") .null .null .null .null .null "hello there" =
      .obj [("response", .str "hello there"),
            ("lang", .str (detect_language_llm (.ok "fa"))), ("intent", .null)] :=
  intent_none_general_fallback _ _ _ _ _ _ _ _ _ "hello there"
    (by decide) rfl rfl

/-- C5 (amended): `Tools.run` answers an unregistered tool name with the
unknown-tool error result, but it has no exception barrier of its own: an
exception raised while preparing a tool call — here `int()` applied to a
non-numeric `top_k` or `max_results` — propagates to the caller instead
of being converted into an error-shaped result.  (Only `book_ticket`
catches exceptions, inside its own body.) -/
theorem tools_run_unknown_tool_and_no_barrier
    (store : TicketStore) (ragO : JValue → ℤ → JValue)
    (webO : JValue → JValue → ℤ → JValue) (newId : String) :
    (∀ name params, name ∉ ["api_book_ticket", "api_cancel_ticket",
        "api_get_ticket_info", "rag_query", "web_search"] →
      toolsRun store ragO webO newId name params =
        .ok (.obj [("error", .str "Unknown tool"), ("status", .num 400)], store))
    ∧ (∀ params e, pyIntCoerce (pyGetD params "top_k" (.num 3)) = .error e →
      toolsRun store ragO webO newId "rag_query" params = .error e)
    ∧ (∀ params e, pyIntCoerce (pyGetD params "max_results" (.num 5)) = .error e →
      toolsRun store ragO webO newId "web_search" params = .error e) := by
  refine ⟨?_, ?_, ?_⟩
  · intro name params hname
    simp only [List.mem_cons, List.mem_singleton, not_or] at hname
    obtain ⟨h1, h2, h3, h4, h5, _⟩ := hname
    unfold toolsRun
    simp [h1, h2, h3, h4, h5]
  · intro params e he
    unfold toolsRun
    simp only [if_neg (by decide : ¬("rag_query" = "api_book_ticket")),
      if_neg (by decide : ¬("rag_query" = "api_cancel_ticket")),
      if_neg (by decide : ¬("rag_query" = "api_get_ticket_info")),
      if_pos (rfl : "rag_query" = "rag_query")]
    rw [he]
    simp
  · intro params e he
    unfold toolsRun
    simp only [if_neg (by decide : ¬("web_search" = "api_book_ticket")),
      if_neg (by decide : ¬("web_search" = "api_cancel_ticket")),
      if_neg (by decide : ¬("web_search" = "api_get_ticket_info")),
      if_neg (by decide : ¬("web_search" = "rag_query")),
      if_pos (rfl : "web_search" = "web_search")]
    rw [he]
    simp

/-- Witness for C5 (amended): an unknown tool name yields the error
result, and a non-numeric `top_k` raises through the dispatch. -/
theorem tools_run_unknown_tool_and_no_barrier_witness :
    (toolsRun [] (fun _ _ => .null) (fun _ _ _ => .null) "id0" "fly_to_moon" [] =
      .ok (.obj [("error", .str "Unknown tool"), ("status", .num 400)], [])) ∧
    (toolsRun [] (fun _ _ => .null) (fun _ _ _ => .null) "id0" "rag_query"
        [("query", .str "سلام"), ("top_k", .str "three")] =
      .error "invalid literal for int() with base 10: three") ∧
    (toolsRun [] (fun _ _ => .null) (fun _ _ _ => .null) "id0" "web_search"
        [("q", .str "Shiraz"), ("max_results", .str "ten")] =
      .error "invalid literal for int() with base 10: ten") :=
  ⟨(tools_run_unknown_tool_and_no_barrier [] _ _ "id0").1 _ _ (by decide),
   (tools_run_unknown_tool_and_no_barrier [] _ _ "id0").2.1 _ _ rfl,
   (tools_run_unknown_tool_and_no_barrier [] _ _ "id0").2.2 _ _ rfl⟩

/-- C5 counterexample: `Tools.run` lets an exception escape — dispatching
`rag_query` with a non-numeric `top_k` ends in an `int()` exception
propagating to the caller, not in a ToolError-shaped result mapping. -/
theorem tools_run_exception_escapes :
    toolsRun [] (fun _ _ => .null) (fun _ _ _ => .null) "id1" "rag_query"
        [("query", .str "hi"), ("top_k", .str "x")] =
      .error "invalid literal for int() with base 10: x" := by
  rfl

/-- When the cache has nothing fresh for the key, `searchCore` with a
failing provider serves the mock results. -/
theorem searchCore_mock (st : SearchState) (ttl now : ℚ) (err query : String)
    (location : Option String) (max_results : ℤ) (key : String)
    (h : (cache_get st.cache ttl now key).1 = none) :
    searchCore st ttl now (.error err) query location max_results key =
      (searchReturn "mock" query (mock_results location max_results),
       { cache := alistSet (cache_get st.cache ttl now key).2 key
           { ts := now, value := mock_results location max_results },
         lastQuery := alistSet st.lastQuery key now }) := by
  unfold searchCore
  have heq : cache_get st.cache ttl now key =
      (none, (cache_get st.cache ttl now key).2) := by
    rw [← h]
  rw [heq]

/-- Every branch of `searchCore` returns a `searchReturn` dict. -/
theorem searchCore_shape (st : SearchState) (ttl now : ℚ)
    (prov : Except String (List SearchDoc)) (query : String)
    (location : Option String) (max_results : ℤ) (key : String) :
    ∃ src results, (searchCore st ttl now prov query location max_results key).1 =
      searchReturn src query results := by
  unfold searchCore
  rcases hcg : cache_get st.cache ttl now key with ⟨c, cc⟩
  cases c with
  | some v => exact ⟨"cache", v, rfl⟩
  | none =>
    cases prov with
    | ok results => exact ⟨"tavily", results, rfl⟩
    | error e => exact ⟨"mock", mock_results location max_results, rfl⟩

/-- Every branch of `search` returns a `searchReturn` dict. -/
theorem search_shape (st : SearchState) (ttl minI now : ℚ)
    (prov : Except String (List SearchDoc)) (query : String)
    (location : Option String) (max_results : ℤ) :
    ∃ src results, (search st ttl minI now prov query location max_results).1 =
      searchReturn src query results := by
  unfold search
  by_cases hrl : now - ((alistGet st.lastQuery
      (make_cache_key query location max_results)).getD 0) < minI
  · rw [if_pos hrl]
    rcases hcg : cache_get st.cache ttl now
        (make_cache_key query location max_results) with ⟨c, cc⟩
    cases c with
    | some v => exact ⟨"cache", v, rfl⟩
    | none => exact searchCore_shape _ _ _ _ _ _ _ _
  · rw [if_neg hrl]
    exact searchCore_shape _ _ _ _ _ _ _ _

/-- C8: whenever no fresh cache entry exists for the request key and the
live provider call fails, `search` answers with `source = "mock"` and the
mock result list, which is non-empty (for `max_results ≥ 1`) and drawn
from the fixed samples; and no `search` call at all returns a hard
failure — every branch produces a dict whose first entry is
`success = True`. -/
theorem web_search_mock_fallback (st : SearchState) (ttl minI now : ℚ)
    (err query : String) (location : Option String) (max_results : ℤ)
    (hcache : (cache_get st.cache ttl now
      (make_cache_key query location max_results)).1 = none)
    (hmax : 1 ≤ max_results) :
    (search st ttl minI now (.error err) query location max_results).1 =
      searchReturn "mock" query (mock_results location max_results)
    ∧ mock_results location max_results ≠ []
    ∧ (∀ d ∈ mock_results location max_results, d ∈ mockSamples)
    ∧ (∀ (st2 : SearchState) (ttl2 minI2 now2 : ℚ)
        (prov2 : Except String (List SearchDoc)) (q2 : String)
        (loc2 : Option String) (mr2 : ℤ), ∃ rest,
        (search st2 ttl2 minI2 now2 prov2 q2 loc2 mr2).1 =
          .obj (("success", .bool true) :: rest)) := by
  refine ⟨?_, ?_, ?_, ?_⟩
  · unfold search
    by_cases hrl : now - ((alistGet st.lastQuery
        (make_cache_key query location max_results)).getD 0) < minI
    · rw [if_pos hrl]
      have heq : cache_get st.cache ttl now
          (make_cache_key query location max_results) =
          (none, (cache_get st.cache ttl now
            (make_cache_key query location max_results)).2) := by
        rw [← hcache]
      rw [heq]
      exact congrArg Prod.fst (searchCore_mock
        { cache := (cache_get st.cache ttl now
            (make_cache_key query location max_results)).2,
          lastQuery := st.lastQuery } ttl now err query location max_results
        (make_cache_key query location max_results)
        (cache_get_again_none _ _ _ _ hcache))
    · rw [if_neg hrl]
      exact congrArg Prod.fst (searchCore_mock st ttl now err query location
        max_results (make_cache_key query location max_results) hcache)
  · unfold mock_results
    apply pySliceTo_ne_nil _ _ hmax
    intro hnil
    have hparts := appendMissing_eq_nil _ _ hnil
    have : mockSamples ≠ [] := by simp [mockSamples]
    exact absurd hparts.1 this
  · intro d hd
    unfold mock_results at hd
    have h1 := pySliceTo_subset _ _ hd
    have h2 := appendMissing_mem _ _ h1
    rcases h2 with hacc | hs
    · rcases location with _ | loc
      · simp at hacc
      · by_cases hloc : loc ≠ ""
        · simp only [if_pos hloc] at hacc
          exact (List.mem_filter.mp hacc).1
        · simp only [if_neg hloc] at hacc
          simp at hacc
    · exact hs
  · intro st2 ttl2 minI2 now2 prov2 q2 loc2 mr2
    obtain ⟨src, results, hs⟩ := search_shape st2 ttl2 minI2 now2 prov2 q2 loc2 mr2
    rw [hs]
    exact ⟨_, rfl⟩

/-- Witness for C8: empty cache, provider outage, query "شیراز": the
conclusion holds at this concrete state. -/
theorem web_search_mock_fallback_witness :
    (search { cache := [], lastQuery := [] } 300 1 0 (.error "outage")
        "شیراز" none 5).1 =
      searchReturn "mock" "شیراز" (mock_results none 5)
    ∧ mock_results none 5 ≠ []
    ∧ (∀ d ∈ mock_results none 5, d ∈ mockSamples)
    ∧ (∀ (st2 : SearchState) (ttl2 minI2 now2 : ℚ)
        (prov2 : Except String (List SearchDoc)) (q2 : String)
        (loc2 : Option String) (mr2 : ℤ), ∃ rest,
        (search st2 ttl2 minI2 now2 prov2 q2 loc2 mr2).1 =
          .obj (("success", .bool true) :: rest)) :=
  web_search_mock_fallback { cache := [], lastQuery := [] } 300 1 0 "outage"
    "شیراز" none 5 rfl (by decide)
